import Mathlib

/-!
Verification of the request-translation relay implemented twice in this
repository:

* `api/create_tavus_server.py` — the standard-library variant
  (`TavusRequestHandler.do_POST` / `do_OPTIONS`), and
* `api/create_conversation.py` — the Flask variant (`create_conversation`).

The HTTP transport, the JSON parser and the outbound HTTPS client are
external primitives: an inbound body arrives already classified as
empty / malformed / parsed, and the upstream call's outcome is a
parameter of the handler.  Each handler is embedded as a pure function
producing the outbound call it issues (if any) together with the
response it writes.
-/

namespace Tavus

/-- JSON values as produced by `json.loads` / consumed by `json.dumps`.
Numbers are modelled as integers (no claim involves fractional
numbers). -/
inductive Json where
  | null : Json
  | bool : Bool → Json
  | num : Int → Json
  | str : String → Json
  | arr : List Json → Json
  | obj : List (String × Json) → Json
deriving Repr, BEq

/-- First-occurrence lookup in an association list, i.e. access to a
Python `dict` field (parsed JSON objects have unique keys, so first
occurrence is the dict's binding). -/
def lookupField (fs : List (String × Json)) (k : String) : Option Json :=
  match fs with
  | [] => none
  | (key, v) :: rest => if key = k then some v else lookupField rest k

/-- `data.get(k)`: field access on a parsed JSON object, `None`
(modelled as `none`) when the key is absent.  The Python code only
applies this to values that are dict objects; on non-objects the model
returns `none`. -/
def Json.get : Json → String → Option Json
  | .obj fs, k => lookupField fs k
  | _, _ => none

/-- Python truthiness of a JSON value (`bool(x)`): `None`, `False`,
`0`, `""`, `[]`, `{}` are falsy, everything else truthy. -/
def pyTruthy : Json → Bool
  | .null => false
  | .bool b => b
  | .num n => n != 0
  | .str s => s != ""
  | .arr xs => !xs.isEmpty
  | .obj fs => !fs.isEmpty

/-- Truthiness of the result of `data.get(k)` (Python `None` when the
key is absent, which is falsy). -/
def pyOptTruthy : Option Json → Bool
  | none => false
  | some j => pyTruthy j

/-- A Python variable holding `data.get(k)` serialised by `json.dumps`:
`None` becomes JSON `null`. -/
def noneToNull : Option Json → Json
  | none => Json.null
  | some j => j

/-- Escape one character the way `json.dumps` does for the characters
appearing in this development (quote, backslash, and the common control
characters). -/
def escapeChar (c : Char) : String :=
  if c = '"' then "\\\""
  else if c = '\\' then "\\\\"
  else if c = '\n' then "\\n"
  else if c = '\t' then "\\t"
  else if c = '\r' then "\\r"
  else String.singleton c

/-- Escape a list of characters the way `json.dumps` does. -/
def escapeChars : List Char → String
  | [] => ""
  | c :: cs => escapeChar c ++ escapeChars cs

/-- Escape a string the way `json.dumps` does. -/
def escapeString (s : String) : String :=
  escapeChars s.data

mutual

/-- `json.dumps` with its default separators (`", "` between items and
`": "` after keys). -/
def jsonDump : Json → String
  | .null => "null"
  | .bool true => "true"
  | .bool false => "false"
  | .num n => toString n
  | .str s => "\"" ++ escapeString s ++ "\""
  | .arr xs => "[" ++ jsonDumpList xs ++ "]"
  | .obj fs => "\x7b" ++ jsonDumpFields fs ++ "\x7d"

/-- Serialise the elements of a JSON array, comma-separated. -/
def jsonDumpList : List Json → String
  | [] => ""
  | [x] => jsonDump x
  | x :: y :: rest => jsonDump x ++ ", " ++ jsonDumpList (y :: rest)

/-- Serialise the fields of a JSON object, comma-separated. -/
def jsonDumpFields : List (String × Json) → String
  | [] => ""
  | [(k, v)] => "\"" ++ escapeString k ++ "\": " ++ jsonDump v
  | (k, v) :: f :: rest =>
      "\"" ++ escapeString k ++ "\": " ++ jsonDump v ++ ", " ++
        jsonDumpFields (f :: rest)

end

/-- The process-wide secrets, read once at startup:
`TAVUS_API_KEY`, `PERSONA_ID` (both required, checked at startup) and
`REPLICA_ID` (`os.environ.get`: `none` when the variable is absent). -/
structure Config where
  apiKey : String
  personaId : String
  replicaId : Option String
deriving Repr, DecidableEq

/-- `if REPLICA_ID:` — the replica is configured iff the variable is
set to a truthy (non-empty) string. -/
def replicaConfigured (cfg : Config) : Bool :=
  match cfg.replicaId with
  | some r => r != ""
  | none => false

/-- The allow-list of optional inbound fields, identical in both
variants (`allowed_keys` set in the server variant, the literal list in
the Flask variant).  The claims are about key membership, which does
not depend on iteration order, so the Flask variant's list order is
used. -/
def allowedKeys : List String :=
  ["conversation_name", "conversational_context", "callback_url",
   "properties", "audio_only"]

/-- Payload construction, identical in both variants: start from
`{"persona_id": PERSONA_ID}`, add `replica_id` if configured, then copy
each allow-listed field present in the parsed inbound object. -/
def buildPayload (cfg : Config) (extra : Json) : List (String × Json) :=
  ("persona_id", Json.str cfg.personaId) ::
    ((match cfg.replicaId with
      | some r => if r != "" then [("replica_id", Json.str r)] else []
      | none => []) ++
     allowedKeys.filterMap (fun k => (extra.get k).map (fun v => (k, v))))

/-- An inbound POST body, as classified by the external JSON parser:
absent / zero-length, present but not valid JSON, or present and parsed
to a JSON value. -/
inductive RequestBody where
  | empty : RequestBody
  | malformed : String → RequestBody
  | valid : String → Json → RequestBody
deriving Repr

/-- The outcome of the outbound `requests.post` call:
a `requests.RequestException` (connection error or timeout) carrying
the exception text, or an HTTP response with its status code, raw body
text, and the value `response.json()` parses it to (only consulted by
the server variant on the 200 path). -/
inductive UpstreamResult where
  | failure : String → UpstreamResult
  | success : Nat → String → Json → UpstreamResult
deriving Repr

/-- The arguments of an outbound `requests.post` call: URL, headers,
JSON payload, and the `timeout` argument (`none` when not passed, so
the call can block indefinitely). -/
structure OutboundCall where
  url : String
  headers : List (String × String)
  payload : List (String × Json)
  timeout : Option Nat
deriving Repr

/-- A response written by the standard-library handler: status code,
the headers the handler itself sends (framework-added `Server`/`Date`
headers excluded), and the body the handler writes (`none` when the
handler writes no body itself, i.e. the framework-generated
`send_error` HTML page or the empty `do_OPTIONS` response). -/
structure HttpResponse where
  status : Nat
  headers : List (String × String)
  body : Option String
deriving Repr

/-- The three CORS headers sent by the success path and `do_OPTIONS`
of the server variant, and by the Flask variant. -/
def corsHeaders : List (String × String) :=
  [("Access-Control-Allow-Origin", "*"),
   ("Access-Control-Allow-Methods", "POST, OPTIONS"),
   ("Access-Control-Allow-Headers", "Content-Type")]

/-- The single `Content-Type: application/json` header the server
variant's error paths send. -/
def jsonOnlyHeaders : List (String × String) :=
  [("Content-Type", "application/json")]

/-- `BaseHTTPRequestHandler.send_error`: the framework writes an HTML
error page with `Content-Type: text/html;charset=utf-8` and
`Connection: close`; the page body is framework-generated and not
modelled. -/
def sendErrorResponse (status : Nat) : HttpResponse :=
  { status := status,
    headers := [("Content-Type", "text/html;charset=utf-8"),
                ("Connection", "close")],
    body := none }

/-- The fixed upstream endpoint. -/
def tavusEndpoint : String := "https://tavusapi.com/v2/conversations"

/-- The part of `TavusRequestHandler.do_POST` after body parsing
(`create_tavus_server.py` lines 84–155): build the payload, issue the
call, and translate the upstream outcome.  `extra` is the parsed
inbound object (`extra_params`). -/
def handlePOST (cfg : Config) (extra : Json) (upstream : UpstreamResult) :
    Option OutboundCall × HttpResponse :=
  let call : OutboundCall :=
    { url := tavusEndpoint,
      headers := [("Content-Type", "application/json"),
                  ("x-api-key", cfg.apiKey)],
      payload := buildPayload cfg extra,
      timeout := some 30 }
  match upstream with
  | .failure exc =>
      (some call,
        { status := 502,
          headers := jsonOnlyHeaders,
          body := some (jsonDump (Json.obj
            [("error", Json.str "Failed to contact Tavus API"),
             ("details", Json.str exc)])) })
  | .success statusCode text data =>
      if statusCode ≠ 200 then
        (some call,
          { status := statusCode,
            headers := jsonOnlyHeaders,
            body := some (jsonDump (Json.obj
              [("error", Json.str "Tavus API error"),
               ("status_code", Json.num statusCode),
               ("details", Json.str text)])) })
      else if pyOptTruthy (data.get "conversation_url") = false then
        (some call,
          { status := 500,
            headers := jsonOnlyHeaders,
            body := some (jsonDump (Json.obj
              [("error", Json.str "Invalid response from Tavus API"),
               ("details", data)])) })
      else
        (some call,
          { status := 200,
            headers := corsHeaders ++ jsonOnlyHeaders,
            body := some (jsonDump (Json.obj
              [("conversation_url",
                 noneToNull (data.get "conversation_url")),
               ("conversation_id",
                 noneToNull (data.get "conversation_id"))])) })

/-- `TavusRequestHandler.do_POST` (`create_tavus_server.py` lines
67–155): 404 on any other path; 400 via `send_error` on a non-empty
body that is not valid JSON, with no outbound call; otherwise an empty
body is treated as the empty object and the request proceeds. -/
def do_POST (cfg : Config) (path : String) (body : RequestBody)
    (upstream : UpstreamResult) : Option OutboundCall × HttpResponse :=
  if path ≠ "/create-conversation" then
    (none, sendErrorResponse 404)
  else
    match body with
    | .malformed _ => (none, sendErrorResponse 400)
    | .empty => handlePOST cfg (Json.obj []) upstream
    | .valid _ j => handlePOST cfg j upstream

/-- `TavusRequestHandler.do_OPTIONS` (`create_tavus_server.py` lines
157–164): always 200 with only the three CORS headers and no body. -/
def do_OPTIONS : HttpResponse :=
  { status := 200, headers := corsHeaders, body := none }

/-- A value returned by the Flask route function: the tuple
`(resp.text, resp.status_code, headers)`. -/
structure FlaskResult where
  text : String
  status : Nat
  headers : List (String × String)
deriving Repr

/-- `create_conversation` (`create_conversation.py` lines 13–47):
`request.get_json(silent=True) or {}` turns a malformed or empty body
— and any falsy parsed value — into the empty object, so payload
construction always proceeds and the outbound call is always issued.
The call is made with no `timeout` argument and no surrounding
`try`/`except`, so a `requests.RequestException` propagates to the
framework: the handler produces no response of its own (`none`).  On
any upstream response the raw body text and status code are relayed
with the fixed headers. -/
def create_conversation (cfg : Config) (body : RequestBody)
    (upstream : UpstreamResult) : OutboundCall × Option FlaskResult :=
  let extra : Json :=
    match body with
    | .valid _ j => if pyTruthy j then j else Json.obj []
    | _ => Json.obj []
  let call : OutboundCall :=
    { url := tavusEndpoint,
      headers := [("x-api-key", cfg.apiKey),
                  ("Content-Type", "application/json")],
      payload := buildPayload cfg extra,
      timeout := none }
  match upstream with
  | .failure _ => (call, none)
  | .success statusCode text _ =>
      (call, some
        { text := text,
          status := statusCode,
          headers := jsonOnlyHeaders ++ corsHeaders })

/-- A concrete configuration used to evaluate the handlers on closed
inputs: both required secrets set, `REPLICA_ID` absent. -/
def cfg₀ : Config := { apiKey := "k0", personaId := "p0", replicaId := none }

theorem lookupField_filterMap_notMem (ks : List String)
    (f : String → Option Json) (k : String) (hk : k ∉ ks) :
    lookupField (ks.filterMap (fun key => (f key).map (fun v => (key, v)))) k
      = none := by
  induction ks with
  | nil => rfl
  | cons key rest ih =>
      simp only [List.mem_cons, not_or] at hk
      obtain ⟨hne, hrest⟩ := hk
      cases hf : f key with
      | none => simpa [List.filterMap_cons, hf] using ih hrest
      | some v =>
          simp only [List.filterMap_cons, hf, Option.map_some', lookupField]
          rw [if_neg (fun h => hne h.symm)]
          exact ih hrest

theorem lookupField_filterMap_mem (ks : List String)
    (f : String → Option Json) (k : String) (hk : k ∈ ks)
    (hnd : ks.Nodup) :
    lookupField (ks.filterMap (fun key => (f key).map (fun v => (key, v)))) k
      = f k := by
  induction ks with
  | nil => cases hk
  | cons key rest ih =>
      rw [List.nodup_cons] at hnd
      obtain ⟨hkey, hndrest⟩ := hnd
      rcases List.mem_cons.mp hk with heq | hmem
      · subst heq
        cases hf : f k with
        | none =>
            simp only [List.filterMap_cons, hf]
            exact lookupField_filterMap_notMem rest f k hkey
        | some v => simp [List.filterMap_cons, hf, lookupField]
      · have hne : key ≠ k := fun h => hkey (h ▸ hmem)
        cases hf : f key with
        | none =>
            simp only [List.filterMap_cons, hf]
            exact ih hmem hndrest
        | some v =>
            simp only [List.filterMap_cons, hf, Option.map_some', lookupField]
            rw [if_neg hne]
            exact ih hmem hndrest

theorem buildPayload_skip_base (cfg : Config) (extra : Json) (k : String)
    (hp : "persona_id" ≠ k) (hrep : "replica_id" ≠ k) :
    lookupField (buildPayload cfg extra) k
      = lookupField
          (allowedKeys.filterMap
            (fun key => (extra.get key).map (fun v => (key, v)))) k := by
  unfold buildPayload
  simp only [lookupField, if_neg hp]
  cases cfg.replicaId with
  | none => rfl
  | some r =>
      by_cases hr : r = ""
      · subst hr
        simp [lookupField]
      · simp [lookupField, hr, if_neg hrep]

theorem buildPayload_persona (cfg : Config) (extra : Json) :
    lookupField (buildPayload cfg extra) "persona_id"
      = some (Json.str cfg.personaId) := by
  unfold buildPayload
  simp [lookupField]

theorem buildPayload_replica_of_configured (cfg : Config) (extra : Json)
    (r : String) (h : cfg.replicaId = some r) (hr : r ≠ "") :
    lookupField (buildPayload cfg extra) "replica_id"
      = some (Json.str r) := by
  unfold buildPayload
  simp [lookupField, h, hr]

theorem buildPayload_replica_of_unconfigured (cfg : Config) (extra : Json)
    (h : replicaConfigured cfg = false) :
    lookupField (buildPayload cfg extra) "replica_id" = none := by
  have hfm := lookupField_filterMap_notMem allowedKeys
    (fun key => extra.get key) "replica_id" (by decide)
  unfold buildPayload
  cases hc : cfg.replicaId with
  | none => simpa [lookupField] using hfm
  | some r =>
      simp only [replicaConfigured, hc] at h
      simpa [lookupField, h] using hfm

theorem buildPayload_allowed (cfg : Config) (extra : Json) (k : String)
    (hk : k ∈ allowedKeys) :
    lookupField (buildPayload cfg extra) k = extra.get k := by
  have hp : "persona_id" ≠ k := by
    intro h; rw [← h] at hk; revert hk; decide
  have hrep : "replica_id" ≠ k := by
    intro h; rw [← h] at hk; revert hk; decide
  rw [buildPayload_skip_base cfg extra k hp hrep]
  exact lookupField_filterMap_mem _ _ _ hk (by decide)

theorem buildPayload_other (cfg : Config) (extra : Json) (k : String)
    (hk : k ∉ allowedKeys) (hp : k ≠ "persona_id") (hrep : k ≠ "replica_id") :
    lookupField (buildPayload cfg extra) k = none := by
  rw [buildPayload_skip_base cfg extra k (fun h => hp h.symm)
    (fun h => hrep h.symm)]
  exact lookupField_filterMap_notMem _ _ _ hk

theorem do_POST_wrong_path (cfg : Config) (path : String) (body : RequestBody)
    (upstream : UpstreamResult) (h : path ≠ "/create-conversation") :
    do_POST cfg path body upstream = (none, sendErrorResponse 404) := by
  simp [do_POST, h]

theorem do_POST_malformed (cfg : Config) (raw : String)
    (upstream : UpstreamResult) :
    do_POST cfg "/create-conversation" (RequestBody.malformed raw) upstream
      = (none, sendErrorResponse 400) := rfl

theorem do_POST_empty (cfg : Config) (upstream : UpstreamResult) :
    do_POST cfg "/create-conversation" RequestBody.empty upstream
      = handlePOST cfg (Json.obj []) upstream := rfl

theorem do_POST_valid (cfg : Config) (raw : String) (j : Json)
    (upstream : UpstreamResult) :
    do_POST cfg "/create-conversation" (RequestBody.valid raw j) upstream
      = handlePOST cfg j upstream := rfl

theorem handlePOST_call (cfg : Config) (extra : Json)
    (upstream : UpstreamResult) :
    (handlePOST cfg extra upstream).fst = some
      { url := tavusEndpoint,
        headers := [("Content-Type", "application/json"),
                    ("x-api-key", cfg.apiKey)],
        payload := buildPayload cfg extra,
        timeout := some 30 } := by
  cases upstream with
  | failure exc => rfl
  | success s t d =>
      simp only [handlePOST]
      split
      · rfl
      · split <;> rfl

theorem handlePOST_failure (cfg : Config) (extra : Json) (exc : String) :
    (handlePOST cfg extra (UpstreamResult.failure exc)).snd =
      { status := 502, headers := jsonOnlyHeaders,
        body := some (jsonDump (Json.obj
          [("error", Json.str "Failed to contact Tavus API"),
           ("details", Json.str exc)])) } := rfl

theorem handlePOST_non200 (cfg : Config) (extra : Json) (s : Nat)
    (text : String) (data : Json) (h : s ≠ 200) :
    (handlePOST cfg extra (UpstreamResult.success s text data)).snd
      = { status := s, headers := jsonOnlyHeaders,
          body := some (jsonDump (Json.obj
            [("error", Json.str "Tavus API error"),
             ("status_code", Json.num s),
             ("details", Json.str text)])) } := by
  simp only [handlePOST]
  rw [if_pos h]

theorem handlePOST_200_falsy (cfg : Config) (extra : Json) (text : String)
    (data : Json) (h : pyOptTruthy (data.get "conversation_url") = false) :
    (handlePOST cfg extra (UpstreamResult.success 200 text data)).snd
      = { status := 500, headers := jsonOnlyHeaders,
          body := some (jsonDump (Json.obj
            [("error", Json.str "Invalid response from Tavus API"),
             ("details", data)])) } := by
  simp only [handlePOST]
  rw [if_neg (fun hh => hh rfl), if_pos h]

theorem handlePOST_200_truthy (cfg : Config) (extra : Json) (text : String)
    (data u : Json) (hu : data.get "conversation_url" = some u)
    (ht : pyTruthy u = true) :
    (handlePOST cfg extra (UpstreamResult.success 200 text data)).snd
      = { status := 200, headers := corsHeaders ++ jsonOnlyHeaders,
          body := some (jsonDump (Json.obj
            [("conversation_url", u),
             ("conversation_id",
               noneToNull (data.get "conversation_id"))])) } := by
  have hfalse : ¬ pyOptTruthy (data.get "conversation_url") = false := by
    rw [hu]
    simp [pyOptTruthy, ht]
  simp only [handlePOST]
  rw [if_neg (fun hh => hh rfl), if_neg hfalse, hu]
  rfl

theorem handlePOST_status200_headers (cfg : Config) (extra : Json)
    (upstream : UpstreamResult)
    (h : (handlePOST cfg extra upstream).snd.status = 200) :
    (handlePOST cfg extra upstream).snd.headers
      = corsHeaders ++ jsonOnlyHeaders := by
  cases upstream with
  | failure exc =>
      rw [handlePOST_failure] at h
      exact absurd (show (502 : Nat) = 200 from h) (by decide)
  | success s t d =>
      by_cases hs : s = 200
      · subst hs
        by_cases hu : pyOptTruthy (d.get "conversation_url") = false
        · rw [handlePOST_200_falsy cfg extra t d hu] at h
          exact absurd (show (500 : Nat) = 200 from h) (by decide)
        · simp only [handlePOST]
          rw [if_neg (fun hh => hh rfl), if_neg hu]
      · rw [handlePOST_non200 cfg extra s t d hs] at h
        exact absurd h hs

theorem create_conversation_payload_obj (cfg : Config) (raw : String)
    (fs : List (String × Json)) (upstream : UpstreamResult) :
    (create_conversation cfg (RequestBody.valid raw (Json.obj fs))
      upstream).fst.payload = buildPayload cfg (Json.obj fs) := by
  cases fs with
  | nil => cases upstream <;> rfl
  | cons p rest => cases upstream <;> rfl

/-- C1: for every inbound POST body parsed as a JSON object, the
outbound payload — in both variants — contains exactly `persona_id`
from the server-side secrets, `replica_id` iff configured (truthy),
and each allow-listed field copied verbatim iff present inbound; no
other inbound field (in particular an inbound `persona_id`) ever
appears in the outbound payload. -/
theorem payload_allowlist_exact (cfg : Config) (fs : List (String × Json))
    (raw : String) (upstream : UpstreamResult) :
    lookupField (buildPayload cfg (Json.obj fs)) "persona_id"
      = some (Json.str cfg.personaId)
    ∧ (∀ r : String, cfg.replicaId = some r → r ≠ "" →
        lookupField (buildPayload cfg (Json.obj fs)) "replica_id"
          = some (Json.str r))
    ∧ (replicaConfigured cfg = false →
        lookupField (buildPayload cfg (Json.obj fs)) "replica_id" = none)
    ∧ (∀ k, k ∈ allowedKeys →
        lookupField (buildPayload cfg (Json.obj fs)) k = lookupField fs k)
    ∧ (∀ k, k ∉ allowedKeys → k ≠ "persona_id" → k ≠ "replica_id" →
        lookupField (buildPayload cfg (Json.obj fs)) k = none)
    ∧ (do_POST cfg "/create-conversation"
        (RequestBody.valid raw (Json.obj fs)) upstream).fst.map
          OutboundCall.payload = some (buildPayload cfg (Json.obj fs))
    ∧ (create_conversation cfg (RequestBody.valid raw (Json.obj fs))
        upstream).fst.payload = buildPayload cfg (Json.obj fs) := by
  refine ⟨buildPayload_persona cfg _, ?_, ?_, ?_, ?_, ?_, ?_⟩
  · intro r hr hne
    exact buildPayload_replica_of_configured cfg _ r hr hne
  · intro h
    exact buildPayload_replica_of_unconfigured cfg _ h
  · intro k hk
    exact buildPayload_allowed cfg _ k hk
  · intro k hk hp hrep
    exact buildPayload_other cfg _ k hk hp hrep
  · rw [do_POST_valid, handlePOST_call]
    rfl
  · exact create_conversation_payload_obj cfg raw fs upstream

/-- C1 witness: a concrete inbound object with one allow-listed field,
a rogue field, and an attempted `persona_id` override. -/
theorem payload_allowlist_exact_witness :
    lookupField (buildPayload cfg₀ (Json.obj
        [("conversation_name", Json.str "demo"),
         ("persona_id", Json.str "evil"),
         ("rogue", Json.num 1)])) "persona_id" = some (Json.str "p0")
    ∧ lookupField (buildPayload cfg₀ (Json.obj
        [("conversation_name", Json.str "demo"),
         ("persona_id", Json.str "evil"),
         ("rogue", Json.num 1)])) "conversation_name"
      = some (Json.str "demo")
    ∧ lookupField (buildPayload cfg₀ (Json.obj
        [("conversation_name", Json.str "demo"),
         ("persona_id", Json.str "evil"),
         ("rogue", Json.num 1)])) "rogue" = none := by
  obtain ⟨h1, -, -, h4, h5, -, -⟩ := payload_allowlist_exact cfg₀
    [("conversation_name", Json.str "demo"),
     ("persona_id", Json.str "evil"),
     ("rogue", Json.num 1)] "" (UpstreamResult.failure "e")
  refine ⟨h1, ?_, ?_⟩
  · rw [h4 "conversation_name" (by decide)]
    rfl
  · exact h5 "rogue" (by decide) (by decide) (by decide)

/-- C2 counterexample: the Flask variant, given a non-empty body that
is not valid JSON, does not respond 400 — `get_json(silent=True)`
turns the malformed body into the empty object, the outbound call is
issued, and the upstream status (here 200) is relayed. -/
theorem malformed_body_400_cex :
    ((create_conversation cfg₀ (RequestBody.malformed "not json")
        (UpstreamResult.success 200 "\x7b\x7d" (Json.obj []))).snd.map
      FlaskResult.status) = some 200
    ∧ ((create_conversation cfg₀ (RequestBody.malformed "not json")
        (UpstreamResult.success 200 "\x7b\x7d" (Json.obj []))).snd.map
      FlaskResult.status) ≠ some 400
    ∧ (create_conversation cfg₀ (RequestBody.malformed "not json")
        (UpstreamResult.success 200 "\x7b\x7d" (Json.obj []))).fst.url
      = tavusEndpoint := by
  exact ⟨rfl, by decide, rfl⟩

/-- C2 (amended): in the standard-library variant a non-empty invalid
JSON body yields status 400 with no outbound call, and an empty body
is treated as the empty object; the Flask variant instead silently
treats a malformed body as the empty object and always issues the
outbound call, relaying the upstream result. -/
theorem malformed_body_400_amended (cfg : Config) (raw : String)
    (upstream : UpstreamResult) :
    do_POST cfg "/create-conversation" (RequestBody.malformed raw) upstream
      = (none, sendErrorResponse 400)
    ∧ (do_POST cfg "/create-conversation" (RequestBody.malformed raw)
        upstream).snd.status = 400
    ∧ do_POST cfg "/create-conversation" RequestBody.empty upstream
      = do_POST cfg "/create-conversation"
          (RequestBody.valid "" (Json.obj [])) upstream
    ∧ (create_conversation cfg (RequestBody.malformed raw)
        upstream).fst.payload = buildPayload cfg (Json.obj [])
    ∧ (create_conversation cfg (RequestBody.malformed raw) upstream).snd
      = (create_conversation cfg (RequestBody.valid raw (Json.obj []))
          upstream).snd := by
  refine ⟨rfl, rfl, rfl, ?_, ?_⟩
  · cases upstream <;> rfl
  · cases upstream <;> rfl

/-- C3 counterexample: the standard-library variant's 502 response
(transport failure) carries only `Content-Type: application/json` —
no `Access-Control-Allow-Origin: *`. -/
theorem cors_on_every_response_cex :
    (do_POST cfg₀ "/create-conversation" RequestBody.empty
        (UpstreamResult.failure "timed out")).snd.status = 502
    ∧ ("Access-Control-Allow-Origin", "*") ∉
        (do_POST cfg₀ "/create-conversation" RequestBody.empty
          (UpstreamResult.failure "timed out")).snd.headers := by
  refine ⟨rfl, ?_⟩
  rw [do_POST_empty, handlePOST_failure]
  decide

/-- C3 (amended): the Flask variant attaches all four fixed headers to
every response it returns; in the standard-library variant only the
200-success response (and the `do_OPTIONS` preflight) carries the CORS
headers, while the 400/404 framework error pages and the 500/502/
relayed-error responses never carry `Access-Control-Allow-Origin`. -/
theorem cors_on_every_response_amended (cfg : Config) (path : String)
    (body : RequestBody) (upstream : UpstreamResult) (r : FlaskResult)
    (exc : String) :
    ((create_conversation cfg body upstream).snd = some r →
      r.headers = jsonOnlyHeaders ++ corsHeaders)
    ∧ ((do_POST cfg path body upstream).snd.status = 200 →
        (do_POST cfg path body upstream).snd.headers
          = corsHeaders ++ jsonOnlyHeaders)
    ∧ do_OPTIONS.headers = corsHeaders
    ∧ ("Access-Control-Allow-Origin", "*") ∉
        (do_POST cfg path body (UpstreamResult.failure exc)).snd.headers
    ∧ (∀ s : Nat, ∀ text : String, ∀ data : Json, s ≠ 200 →
        ("Access-Control-Allow-Origin", "*") ∉
          (do_POST cfg path body
            (UpstreamResult.success s text data)).snd.headers)
    ∧ (∀ text : String, ∀ data : Json,
        pyOptTruthy (data.get "conversation_url") = false →
          ("Access-Control-Allow-Origin", "*") ∉
            (do_POST cfg path body
              (UpstreamResult.success 200 text data)).snd.headers) := by
  have hnotin : ("Access-Control-Allow-Origin", "*") ∉ jsonOnlyHeaders := by
    decide
  have h404 : ("Access-Control-Allow-Origin", "*") ∉
      (sendErrorResponse 404).headers := by decide
  have h400 : ("Access-Control-Allow-Origin", "*") ∉
      (sendErrorResponse 400).headers := by decide
  refine ⟨?_, ?_, rfl, ?_, ?_, ?_⟩
  · intro h
    cases upstream with
    | failure e => simp [create_conversation] at h
    | success s t d =>
        have hsnd : (create_conversation cfg body
            (UpstreamResult.success s t d)).snd = some
              { text := t, status := s,
                headers := jsonOnlyHeaders ++ corsHeaders } := by
          cases body <;> rfl
        rw [hsnd] at h
        have h2 := Option.some.inj h
        rw [← h2]
  · intro h
    by_cases hp : path = "/create-conversation"
    · subst hp
      cases body with
      | malformed raw =>
          rw [do_POST_malformed] at h
          exact absurd (show (400 : Nat) = 200 from h) (by decide)
      | empty =>
          rw [do_POST_empty] at h ⊢
          exact handlePOST_status200_headers cfg _ upstream h
      | valid raw j =>
          rw [do_POST_valid] at h ⊢
          exact handlePOST_status200_headers cfg j upstream h
    · rw [do_POST_wrong_path cfg path body upstream hp] at h
      exact absurd (show (404 : Nat) = 200 from h) (by decide)
  · by_cases hp : path = "/create-conversation"
    · subst hp
      cases body with
      | malformed raw => rw [do_POST_malformed]; exact h400
      | empty => rw [do_POST_empty, handlePOST_failure]; exact hnotin
      | valid raw j => rw [do_POST_valid, handlePOST_failure]; exact hnotin
    · rw [do_POST_wrong_path cfg path body _ hp]
      exact h404
  · intro s text data hs
    by_cases hp : path = "/create-conversation"
    · subst hp
      cases body with
      | malformed raw => rw [do_POST_malformed]; exact h400
      | empty =>
          rw [do_POST_empty, handlePOST_non200 cfg (Json.obj []) s text data hs]
          exact hnotin
      | valid raw j =>
          rw [do_POST_valid, handlePOST_non200 cfg j s text data hs]
          exact hnotin
    · rw [do_POST_wrong_path cfg path body _ hp]
      exact h404
  · intro text data hd
    by_cases hp : path = "/create-conversation"
    · subst hp
      cases body with
      | malformed raw => rw [do_POST_malformed]; exact h400
      | empty =>
          rw [do_POST_empty, handlePOST_200_falsy cfg (Json.obj []) text data hd]
          exact hnotin
      | valid raw j =>
          rw [do_POST_valid, handlePOST_200_falsy cfg j text data hd]
          exact hnotin
    · rw [do_POST_wrong_path cfg path body _ hp]
      exact h404

/-- C3 amended witness: the standard-library 200-success response and
a Flask response carry the full header set, while a relayed 403 and a
500 contract-violation response lack `Access-Control-Allow-Origin`. -/
theorem cors_on_every_response_amended_witness :
    (do_POST cfg₀ "/create-conversation" RequestBody.empty
        (UpstreamResult.success 200 "ok"
          (Json.obj [("conversation_url", Json.str "https://x"),
                     ("conversation_id", Json.str "c1")]))).snd.headers
      = corsHeaders ++ jsonOnlyHeaders
    ∧ ({ text := "ok", status := 200,
         headers := jsonOnlyHeaders ++ corsHeaders } : FlaskResult).headers
      = jsonOnlyHeaders ++ corsHeaders
    ∧ ("Access-Control-Allow-Origin", "*") ∉
        (do_POST cfg₀ "/create-conversation" RequestBody.empty
          (UpstreamResult.success 403 "denied" Json.null)).snd.headers
    ∧ ("Access-Control-Allow-Origin", "*") ∉
        (do_POST cfg₀ "/create-conversation" RequestBody.empty
          (UpstreamResult.success 200 "t" (Json.obj []))).snd.headers := by
  have h := cors_on_every_response_amended cfg₀ "/create-conversation"
    RequestBody.empty
    (UpstreamResult.success 200 "ok"
      (Json.obj [("conversation_url", Json.str "https://x"),
                 ("conversation_id", Json.str "c1")]))
    { text := "ok", status := 200, headers := jsonOnlyHeaders ++ corsHeaders }
    "exc"
  exact ⟨h.2.1 rfl, h.1 rfl,
    h.2.2.2.2.1 403 "denied" Json.null (by decide),
    h.2.2.2.2.2 "t" (Json.obj []) rfl⟩

/-- C4 counterexample: in the Flask variant the outbound call has no
surrounding `try`/`except`, so a transport-level failure produces no
handler response at all (the exception propagates to the framework) —
in particular no 502 response. -/
theorem transport_failure_502_cex :
    (create_conversation cfg₀ RequestBody.empty
        (UpstreamResult.failure "connection refused")).snd = none
    ∧ ((create_conversation cfg₀ RequestBody.empty
        (UpstreamResult.failure "connection refused")).snd.map
      FlaskResult.status) ≠ some 502 := by
  exact ⟨rfl, by decide⟩

/-- C4 (amended): in the standard-library variant a transport-level
failure of the outbound call yields status 502 with body
`{error: "Failed to contact Tavus API", details: <exception text>}`;
in the Flask variant the exception is uncaught and the handler
produces no response of its own. -/
theorem transport_failure_502_amended (cfg : Config) (raw : String)
    (j : Json) (exc : String) :
    (do_POST cfg "/create-conversation" (RequestBody.valid raw j)
        (UpstreamResult.failure exc)).snd
      = { status := 502, headers := jsonOnlyHeaders,
          body := some (jsonDump (Json.obj
            [("error", Json.str "Failed to contact Tavus API"),
             ("details", Json.str exc)])) }
    ∧ (do_POST cfg "/create-conversation" RequestBody.empty
        (UpstreamResult.failure exc)).snd
      = { status := 502, headers := jsonOnlyHeaders,
          body := some (jsonDump (Json.obj
            [("error", Json.str "Failed to contact Tavus API"),
             ("details", Json.str exc)])) }
    ∧ (create_conversation cfg (RequestBody.valid raw j)
        (UpstreamResult.failure exc)).snd = none
    ∧ (create_conversation cfg RequestBody.empty
        (UpstreamResult.failure exc)).snd = none := by
  exact ⟨rfl, rfl, rfl, rfl⟩

/-- C5 counterexample: on an upstream 403 with raw body `denied`, the
Flask variant relays the raw body verbatim — not the JSON wrapper
`{error: "Tavus API error", status_code, details}` the claim
requires. -/
theorem upstream_error_relay_cex :
    ((create_conversation cfg₀ RequestBody.empty
        (UpstreamResult.success 403 "denied" Json.null)).snd.map
      FlaskResult.text) = some "denied"
    ∧ "denied" ≠ jsonDump (Json.obj
        [("error", Json.str "Tavus API error"),
         ("status_code", Json.num 403),
         ("details", Json.str "denied")]) := by
  exact ⟨rfl, by decide⟩

/-- C5 (amended): both variants relay an upstream non-200 status code
to the caller, but only the standard-library variant wraps the body in
`{error: "Tavus API error", status_code, details: <raw upstream
body>}`; the Flask variant relays the raw upstream body verbatim. -/
theorem upstream_error_relay_amended (cfg : Config) (raw : String)
    (j : Json) (s : Nat) (text : String) (data : Json) (h : s ≠ 200) :
    (do_POST cfg "/create-conversation" (RequestBody.valid raw j)
        (UpstreamResult.success s text data)).snd
      = { status := s, headers := jsonOnlyHeaders,
          body := some (jsonDump (Json.obj
            [("error", Json.str "Tavus API error"),
             ("status_code", Json.num s),
             ("details", Json.str text)])) }
    ∧ (create_conversation cfg (RequestBody.valid raw j)
        (UpstreamResult.success s text data)).snd
      = some { text := text, status := s,
               headers := jsonOnlyHeaders ++ corsHeaders } := by
  constructor
  · rw [do_POST_valid]
    exact handlePOST_non200 cfg j s text data h
  · rfl

/-- C5 amended witness: upstream 403 relayed by both variants. -/
theorem upstream_error_relay_amended_witness :
    (do_POST cfg₀ "/create-conversation" (RequestBody.valid "" Json.null)
        (UpstreamResult.success 403 "denied" Json.null)).snd.status = 403
    ∧ (create_conversation cfg₀ (RequestBody.valid "" Json.null)
        (UpstreamResult.success 403 "denied" Json.null)).snd.map
      FlaskResult.status = some 403 := by
  have h := upstream_error_relay_amended cfg₀ "" Json.null 403 "denied"
    Json.null (by decide)
  constructor
  · rw [h.1]
  · rw [h.2]
    rfl

/-- C6 counterexample: on an upstream 200 whose body lacks
`conversation_url`, the Flask variant relays status 200 — it never
produces the 500 contract-violation response. -/
theorem missing_url_500_cex :
    ((create_conversation cfg₀ RequestBody.empty
        (UpstreamResult.success 200 "\x7b\"conversation_id\": \"c1\"\x7d"
          (Json.obj [("conversation_id", Json.str "c1")]))).snd.map
      FlaskResult.status) = some 200
    ∧ ((create_conversation cfg₀ RequestBody.empty
        (UpstreamResult.success 200 "\x7b\"conversation_id\": \"c1\"\x7d"
          (Json.obj [("conversation_id", Json.str "c1")]))).snd.map
      FlaskResult.status) ≠ some 500 := by
  exact ⟨rfl, by decide⟩

/-- C6 (amended): only the standard-library variant answers an
upstream 200 whose parsed body lacks `conversation_url` with status
500 and body `{error: "Invalid response from Tavus API", details:
<parsed body>}`; the Flask variant relays the raw 200 response. -/
theorem missing_url_500_amended (cfg : Config) (raw : String) (j : Json)
    (text : String) (data : Json)
    (h : data.get "conversation_url" = none) :
    (do_POST cfg "/create-conversation" (RequestBody.valid raw j)
        (UpstreamResult.success 200 text data)).snd
      = { status := 500, headers := jsonOnlyHeaders,
          body := some (jsonDump (Json.obj
            [("error", Json.str "Invalid response from Tavus API"),
             ("details", data)])) }
    ∧ (create_conversation cfg (RequestBody.valid raw j)
        (UpstreamResult.success 200 text data)).snd
      = some { text := text, status := 200,
               headers := jsonOnlyHeaders ++ corsHeaders } := by
  constructor
  · rw [do_POST_valid]
    exact handlePOST_200_falsy cfg j text data (by rw [h]; rfl)
  · rfl

/-- C6 amended witness: upstream 200 with only `conversation_id`. -/
theorem missing_url_500_amended_witness :
    (do_POST cfg₀ "/create-conversation" (RequestBody.valid "b" (Json.obj []))
        (UpstreamResult.success 200 "t"
          (Json.obj [("conversation_id", Json.str "c1")]))).snd.status
      = 500 := by
  rw [(missing_url_500_amended cfg₀ "b" (Json.obj []) "t"
    (Json.obj [("conversation_id", Json.str "c1")]) rfl).1]

/-- C7 counterexample: on an upstream 200 whose body carries
`conversation_url`, `conversation_id` and an extra field, the Flask
variant relays the raw body — the response body is not exactly
`{conversation_url, conversation_id}`. -/
theorem success_extract_cex :
    ((create_conversation cfg₀ RequestBody.empty
        (UpstreamResult.success 200
          "\x7b\"conversation_url\": \"https://x\", \"conversation_id\": \"c1\", \"extra\": 1\x7d"
          (Json.obj [("conversation_url", Json.str "https://x"),
                     ("conversation_id", Json.str "c1"),
                     ("extra", Json.num 1)]))).snd.map FlaskResult.text)
      = some "\x7b\"conversation_url\": \"https://x\", \"conversation_id\": \"c1\", \"extra\": 1\x7d"
    ∧ "\x7b\"conversation_url\": \"https://x\", \"conversation_id\": \"c1\", \"extra\": 1\x7d"
      ≠ jsonDump (Json.obj
          [("conversation_url", Json.str "https://x"),
           ("conversation_id", Json.str "c1")]) := by
  exact ⟨rfl, by decide⟩

/-- C7 (amended): in the standard-library variant, an upstream 200
whose parsed body carries a truthy `conversation_url` yields status
200 with body exactly `{conversation_url, conversation_id}` extracted
from the upstream body; the Flask variant relays the upstream status
and raw body verbatim. -/
theorem success_extract_amended (cfg : Config) (raw : String) (j : Json)
    (text : String) (data u : Json)
    (hu : data.get "conversation_url" = some u)
    (ht : pyTruthy u = true) :
    (do_POST cfg "/create-conversation" (RequestBody.valid raw j)
        (UpstreamResult.success 200 text data)).snd
      = { status := 200, headers := corsHeaders ++ jsonOnlyHeaders,
          body := some (jsonDump (Json.obj
            [("conversation_url", u),
             ("conversation_id",
               noneToNull (data.get "conversation_id"))])) }
    ∧ (create_conversation cfg (RequestBody.valid raw j)
        (UpstreamResult.success 200 text data)).snd
      = some { text := text, status := 200,
               headers := jsonOnlyHeaders ++ corsHeaders } := by
  constructor
  · rw [do_POST_valid]
    exact handlePOST_200_truthy cfg j text data u hu ht
  · rfl

/-- C7 amended witness: a well-formed upstream success body. -/
theorem success_extract_amended_witness :
    (do_POST cfg₀ "/create-conversation" (RequestBody.valid "" (Json.obj []))
        (UpstreamResult.success 200 "t"
          (Json.obj [("conversation_url", Json.str "https://x"),
                     ("conversation_id", Json.str "c1")]))).snd.status = 200
    ∧ (do_POST cfg₀ "/create-conversation" (RequestBody.valid "" (Json.obj []))
        (UpstreamResult.success 200 "t"
          (Json.obj [("conversation_url", Json.str "https://x"),
                     ("conversation_id", Json.str "c1")]))).snd.body
      = some "\x7b\"conversation_url\": \"https://x\", \"conversation_id\": \"c1\"\x7d" := by
  have h := success_extract_amended cfg₀ "" (Json.obj []) "t"
    (Json.obj [("conversation_url", Json.str "https://x"),
               ("conversation_id", Json.str "c1")])
    (Json.str "https://x") rfl (by decide)
  constructor
  · rw [h.1]
  · rw [h.1]
    rfl

/-- C8 counterexample: the Flask variant issues `requests.post` with
no `timeout` argument, so its outbound call is unbounded. -/
theorem outbound_timeout_cex :
    (create_conversation cfg₀ RequestBody.empty
        (UpstreamResult.success 200 "" Json.null)).fst.timeout = none
    ∧ (create_conversation cfg₀ RequestBody.empty
        (UpstreamResult.success 200 "" Json.null)).fst.timeout
      ≠ some 30 := by
  exact ⟨rfl, by decide⟩

/-- C8 (amended): only the standard-library variant bounds the
outbound call with `timeout=30`; the Flask variant issues the call
with no timeout, so a stalled upstream can block its handler
indefinitely. -/
theorem outbound_timeout_amended (cfg : Config) (raw : String) (j : Json)
    (upstream : UpstreamResult) :
    (do_POST cfg "/create-conversation" (RequestBody.valid raw j)
        upstream).fst.map OutboundCall.timeout = some (some 30)
    ∧ (do_POST cfg "/create-conversation" RequestBody.empty
        upstream).fst.map OutboundCall.timeout = some (some 30)
    ∧ (create_conversation cfg (RequestBody.valid raw j)
        upstream).fst.timeout = none
    ∧ (create_conversation cfg RequestBody.empty
        upstream).fst.timeout = none := by
  refine ⟨?_, ?_, ?_, ?_⟩
  · rw [do_POST_valid, handlePOST_call]
    rfl
  · rw [do_POST_empty, handlePOST_call]
    rfl
  · cases upstream <;> rfl
  · cases upstream <;> rfl

/-- C9: when `REPLICA_ID` is set to the empty string, both variants
treat the replica as unconfigured — the truthiness test `if
REPLICA_ID:` fails — so `replica_id` is omitted from the outbound
payload of every request. -/
theorem empty_replica_omitted (cfg : Config) (h : cfg.replicaId = some "")
    (extra : Json) (raw : String) (upstream : UpstreamResult) :
    lookupField (buildPayload cfg extra) "replica_id" = none
    ∧ ((do_POST cfg "/create-conversation" (RequestBody.valid raw extra)
        upstream).fst.map
          (fun c => lookupField c.payload "replica_id")) = some none
    ∧ lookupField ((create_conversation cfg (RequestBody.valid raw extra)
        upstream).fst.payload) "replica_id" = none := by
  have hconf : replicaConfigured cfg = false := by
    simp [replicaConfigured, h]
  have hrep : ∀ e : Json, lookupField (buildPayload cfg e) "replica_id"
      = none := fun e => buildPayload_replica_of_unconfigured cfg e hconf
  refine ⟨hrep extra, ?_, ?_⟩
  · rw [do_POST_valid, handlePOST_call]
    simp [hrep]
  · cases upstream <;> simp [create_conversation, hrep]

/-- C9 witness: `REPLICA_ID=""` with an allow-listed field present. -/
theorem empty_replica_omitted_witness :
    lookupField (buildPayload
      { apiKey := "k0", personaId := "p0", replicaId := some "" }
      (Json.obj [("audio_only", Json.bool true)])) "replica_id"
      = none := by
  exact (empty_replica_omitted
    { apiKey := "k0", personaId := "p0", replicaId := some "" } rfl
    (Json.obj [("audio_only", Json.bool true)]) ""
    (UpstreamResult.failure "e")).1

/-- C10 counterexample: the 500 contract-violation path is triggered
by a falsy `conversation_url`, not only by an absent one — an upstream
200 body that does contain `conversation_url` (as the empty string)
and lacks `conversation_id` is answered 500, not 200. -/
theorem null_conversation_id_cex :
    (do_POST cfg₀ "/create-conversation" RequestBody.empty
        (UpstreamResult.success 200 "t"
          (Json.obj [("conversation_url", Json.str "")]))).snd.status = 500
    ∧ (do_POST cfg₀ "/create-conversation" RequestBody.empty
        (UpstreamResult.success 200 "t"
          (Json.obj [("conversation_url", Json.str "")]))).snd.status
      ≠ 200 := by
  exact ⟨rfl, by decide⟩

/-- C10 (amended): in the standard-library variant, an upstream 200
whose parsed body carries a truthy `conversation_url` and no
`conversation_id` is answered 200 with `conversation_id: null` in the
success body; the 500 path is triggered exactly by a falsy
`conversation_url` (absent, `null`, `false`, `0`, or the empty
string), not only by an absent one. -/
theorem null_conversation_id_amended (cfg : Config) (text : String)
    (data u : Json) (hu : data.get "conversation_url" = some u)
    (ht : pyTruthy u = true) (hid : data.get "conversation_id" = none) :
    (do_POST cfg "/create-conversation" RequestBody.empty
        (UpstreamResult.success 200 text data)).snd.status = 200
    ∧ (do_POST cfg "/create-conversation" RequestBody.empty
        (UpstreamResult.success 200 text data)).snd.body
      = some (jsonDump (Json.obj
          [("conversation_url", u), ("conversation_id", Json.null)]))
    ∧ (∀ d : Json, pyOptTruthy (d.get "conversation_url") = false →
        (do_POST cfg "/create-conversation" RequestBody.empty
          (UpstreamResult.success 200 text d)).snd.status = 500) := by
  have hmain := handlePOST_200_truthy cfg (Json.obj []) text data u hu ht
  refine ⟨?_, ?_, ?_⟩
  · rw [do_POST_empty, hmain]
  · have hn : noneToNull (data.get "conversation_id") = Json.null := by
      rw [hid]
      rfl
    rw [do_POST_empty, hmain]
    simp only [hn]
  · intro d hd
    rw [do_POST_empty, handlePOST_200_falsy cfg (Json.obj []) text d hd]

/-- C10 amended witness: upstream 200 body with a truthy
`conversation_url` and no `conversation_id`. -/
theorem null_conversation_id_amended_witness :
    (do_POST cfg₀ "/create-conversation" RequestBody.empty
        (UpstreamResult.success 200 "t"
          (Json.obj [("conversation_url", Json.str "https://x")]))).snd.status
      = 200
    ∧ (do_POST cfg₀ "/create-conversation" RequestBody.empty
        (UpstreamResult.success 200 "t"
          (Json.obj [("conversation_url", Json.str "https://x")]))).snd.body
      = some "\x7b\"conversation_url\": \"https://x\", \"conversation_id\": null\x7d" := by
  have h := null_conversation_id_amended cfg₀ "t"
    (Json.obj [("conversation_url", Json.str "https://x")])
    (Json.str "https://x") rfl (by decide) rfl
  refine ⟨h.1, ?_⟩
  rw [h.2.1]
  rfl

end Tavus
